import Mathlib

/-!
Verification development for the bitrise git-clone step (step.go, util.go).

The step is a straight-line orchestrator around external processes (git,
envman) and the filesystem.  We embed it shallowly: every external effect
becomes an `Event` in an explicit trace, and the outcomes of the external
collaborators (does the `.git` path exist, does each git invocation
succeed, what does `git log` print, does `envman add` succeed) are
parameters collected in `GitEnv` / `MainEnv`.  The control flow, argument
vectors and error-message strings are translated literally from the Go
source.  `exec.Command` is run with `cmd.Dir` unset throughout the source
and the program never changes its working directory, so every child
process runs in the working directory the step process was started in;
that directory is the explicit `procCwd` parameter below.
-/

namespace GitCloneStep

/-- One observable side effect of the step: a filesystem probe, a directory
creation, a process-environment write, an external process invocation
(git with inherited streams, git log with captured streams, envman), a
file write, or a line printed to the step output. -/
inductive Event where
  | statCheck (p : String)
  | mkdirCall (d : String)
  | setenvCall (k v : String)
  | runGit (workDir : String) (args : List String)
  | runGitCaptured (workDir : String) (args : List String)
  | envmanRun (key value : String)
  | fileWrite (p content : String)
  | printLine (s : String)
deriving DecidableEq

/-- Outcomes of the external collaborators consulted by `doGitClone`:
whether `destinationDir/.git` exists (or the probe itself errors), whether
`os.Mkdir` succeeds, the exit outcome of each git invocation, the outcome
of each `git log -1 --format <f>` query (on success its captured standard
output, on failure the run error and the captured standard error), and per
key the outcome of `envman add`. -/
structure GitEnv where
  gitCheckExists : Except String Bool
  mkdirOk : Bool
  initRes : Except String Unit
  addRemoteRes : Except String Unit
  fetchRes : Except String Unit
  checkoutRes : Except String Unit
  submoduleRes : Except String Unit
  logExec : String → Except (String × String) String
  envmanRes : String → Except String Unit

/-- `path.Join` as used by the source on a directory and a simple final
component. -/
def joinPath (a b : String) : String := a ++ "/" ++ b

/-- Argument vector of the init step: `git init`. -/
def gitInitArgs : List String := ["init"]

/-- Argument vector of the add-remote step: `git remote add origin <url>`. -/
def gitAddRemoteArgs (repositoryURL : String) : List String :=
  ["remote", "add", "origin", repositoryURL]

/-- Argument vector of the fetch step, from `doGitFetch`: `args := ["fetch"]`,
and when a pull-request id is present the two extra arguments
`origin` and `pull/<id>/merge:<checkout param>` are appended. -/
def gitFetchArgs (pullRequestID gitCheckoutParam : String) : List String :=
  if pullRequestID ≠ "" then
    ["fetch", "origin", "pull/" ++ pullRequestID ++ "/merge:" ++ gitCheckoutParam]
  else
    ["fetch"]

/-- Argument vector of the checkout step: `git checkout <param>`. -/
def gitCheckoutArgs (gitCheckoutParam : String) : List String :=
  ["checkout", gitCheckoutParam]

/-- Argument vector of the submodule step:
`git submodule update --init --recursive`. -/
def gitSubmoduleArgs : List String :=
  ["submodule", "update", "--init", "--recursive"]

/-- Argument vector of a metadata query: `git log -1 --format <f>`. -/
def gitLogArgs (formatParam : String) : List String :=
  ["log", "-1", "--format", formatParam]

/-- `doGitInit` from step.go: runs `git init` with `cmd.Dir` unset, so in
the process working directory. -/
def doGitInit (env : GitEnv) (procCwd : String) : Except String Unit × List Event :=
  (env.initRes, [Event.runGit procCwd gitInitArgs])

/-- `doGitAddRemote` from step.go: sets `GIT_ASKPASS` and `GIT_SSH`, then
runs `git remote add origin <url>` in the process working directory. -/
def doGitAddRemote (env : GitEnv) (procCwd sshNoPromtFilePth repositoryURL : String) :
    Except String Unit × List Event :=
  (env.addRemoteRes,
   [Event.setenvCall "GIT_ASKPASS" "echo",
    Event.setenvCall "GIT_SSH" sshNoPromtFilePth,
    Event.runGit procCwd (gitAddRemoteArgs repositoryURL)])

/-- `doGitFetch` from step.go: sets `GIT_ASKPASS` and `GIT_SSH`, then runs
git with `gitFetchArgs` in the process working directory. -/
def doGitFetch (env : GitEnv) (procCwd sshNoPromtFilePth pullRequestID gitCheckoutParam : String) :
    Except String Unit × List Event :=
  (env.fetchRes,
   [Event.setenvCall "GIT_ASKPASS" "echo",
    Event.setenvCall "GIT_SSH" sshNoPromtFilePth,
    Event.runGit procCwd (gitFetchArgs pullRequestID gitCheckoutParam)])

/-- `doGitCheckout` from step.go. -/
def doGitCheckout (env : GitEnv) (procCwd gitCheckoutParam : String) :
    Except String Unit × List Event :=
  (env.checkoutRes, [Event.runGit procCwd (gitCheckoutArgs gitCheckoutParam)])

/-- `doGitSubmodelueUpdate` from step.go (source spelling kept). -/
def doGitSubmodelueUpdate (env : GitEnv) (procCwd sshNoPromtFilePth : String) :
    Except String Unit × List Event :=
  (env.submoduleRes,
   [Event.setenvCall "GIT_ASKPASS" "echo",
    Event.setenvCall "GIT_SSH" sshNoPromtFilePth,
    Event.runGit procCwd gitSubmoduleArgs])

/-- `getGitLog` from step.go: runs `git log -1 --format <f>` through
`RunCommandWithWriters` with captured buffers; on success returns the
captured standard output unchanged, on failure returns the wrapped error
(carrying the run error and the captured standard error). -/
def getGitLog (env : GitEnv) (procCwd formatParam : String) :
    Except String String × List Event :=
  match env.logExec formatParam with
  | .ok out => (.ok out, [Event.runGitCaptured procCwd (gitLogArgs formatParam)])
  | .error ed =>
      (.error ("git log failed, err: " ++ ed.1 ++ ", details: " ++ ed.2),
       [Event.runGitCaptured procCwd (gitLogArgs formatParam)])

/-- The seven commit-metadata keys with their `git log` one-line format
specifiers, in the order the queries appear in `doGitClone`. -/
def commitStatsSpecs : List (String × String) :=
  [("GIT_CLONE_COMMIT_HASH", "%H"),
   ("GIT_CLONE_COMMIT_MESSAGE_SUBJECT", "%s"),
   ("GIT_CLONE_COMMIT_MESSAGE_BODY", "%b"),
   ("GIT_CLONE_COMMIT_AUTHOR_NAME", "%an"),
   ("GIT_CLONE_COMMIT_AUTHOR_EMAIL", "%ae"),
   ("GIT_CLONE_COMMIT_COMMITER_NAME", "%cn"),
   ("GIT_CLONE_COMMIT_COMMITER_EMAIL", "%ce")]

/-- One metadata query as written in `doGitClone`: call `getGitLog`; on
error print it with `fmt.Println` and keep the returned empty string as
the value stored under the key. -/
def collectOneStat (env : GitEnv) (procCwd : String) (kf : String × String) :
    (String × String) × List Event :=
  match getGitLog env procCwd kf.2 with
  | (.ok v, tr) => ((kf.1, v), tr)
  | (.error e, tr) => ((kf.1, ""), tr ++ [Event.printLine e])

/-- The seven metadata queries of `doGitClone`, in source order, producing
the `commitStats` pairs and the accumulated trace. -/
def collectCommitStats (env : GitEnv) (procCwd : String) :
    List (String × String) × List Event :=
  (commitStatsSpecs.map (fun kf => (collectOneStat env procCwd kf).1),
   (commitStatsSpecs.map (fun kf => (collectOneStat env procCwd kf).2)).flatten)

/-- One iteration of the publishing loop of `doGitClone`: `envmanAdd` on
the pair; on failure print the `Faild to export ouput` line (source
spelling kept) and continue. -/
def publishOneStat (env : GitEnv) (kv : String × String) : List Event :=
  match env.envmanRes kv.1 with
  | .ok _ => [Event.envmanRun kv.1 kv.2]
  | .error e =>
      [Event.envmanRun kv.1 kv.2,
       Event.printLine ("Faild to export ouput: (" ++ kv.1 ++ "), err: " ++ e)]

/-- The publishing loop of `doGitClone` over the collected pairs. -/
def publishCommitStats (env : GitEnv) (stats : List (String × String)) : List Event :=
  (stats.map (publishOneStat env)).flatten

/-- `doGitClone` from step.go, literally: guard on `cloneIntoDir/.git`,
`os.Mkdir`, then init, add-remote, fetch; if a checkout parameter is
present, checkout, submodule update, the seven metadata queries and the
publishing loop; otherwise print the notice.  Every wrapped error string
is taken verbatim from the source; in particular the init failure wraps
`cloneIntoDir` where the source comment pattern would call for the
underlying error. -/
def doGitClone (env : GitEnv)
    (procCwd cloneIntoDir privateKeyFilePth repositoryURL pullRequestID gitCheckoutParam : String) :
    Except String Unit × List Event :=
  let gitCheckPath := joinPath cloneIntoDir ".git"
  match env.gitCheckExists with
  | .error e => (.error e, [Event.statCheck gitCheckPath])
  | .ok true =>
      (.error (".git folder already exists in the destination dir at: " ++ gitCheckPath),
       [Event.statCheck gitCheckPath])
  | .ok false =>
    let tr0 := [Event.statCheck gitCheckPath, Event.mkdirCall cloneIntoDir]
    if env.mkdirOk = false then
      (.error ("Failed to create the clone_destination_dir at: " ++ cloneIntoDir), tr0)
    else
      let initStep := doGitInit env procCwd
      let tr1 := tr0 ++ initStep.2
      match initStep.1 with
      | .error _ => (.error ("Could not init git repository, err: " ++ cloneIntoDir), tr1)
      | .ok _ =>
        let sshNoPromptFile :=
          if privateKeyFilePth ≠ "" then "ssh_no_prompt_with_id.sh" else "ssh_no_prompt.sh"
        let remoteStep := doGitAddRemote env procCwd sshNoPromptFile repositoryURL
        let tr2 := tr1 ++ remoteStep.2
        match remoteStep.1 with
        | .error e => (.error ("Could not add remote, err: " ++ e), tr2)
        | .ok _ =>
          let fetchStep := doGitFetch env procCwd sshNoPromptFile pullRequestID gitCheckoutParam
          let tr3 := tr2 ++ fetchStep.2
          match fetchStep.1 with
          | .error e => (.error ("Could not fetch from repository, err: " ++ e), tr3)
          | .ok _ =>
            if gitCheckoutParam ≠ "" then
              let coStep := doGitCheckout env procCwd gitCheckoutParam
              let tr4 := tr3 ++ coStep.2
              match coStep.1 with
              | .error e =>
                  (.error ("Could not do checkout (" ++ gitCheckoutParam ++ "), err: " ++ e), tr4)
              | .ok _ =>
                let subStep := doGitSubmodelueUpdate env procCwd sshNoPromptFile
                let tr5 := tr4 ++ subStep.2
                match subStep.1 with
                | .error e =>
                    (.error ("Could not fetch from submodule repositories, err: " ++ e), tr5)
                | .ok _ =>
                  let statsStep := collectCommitStats env procCwd
                  (.ok (),
                   tr5 ++ statsStep.2 ++ publishCommitStats env statsStep.1)
            else
              (.ok (),
               tr3 ++ [Event.printLine " [!] No checkout parameter (branch, tag, commit hash or pull-request ID) provided!"])

/-- `validateRequiredInput` from step.go: reads the named value (passed in
here explicitly) and errors when it is the empty string. -/
def validateRequiredInput (key value : String) : Except String String :=
  if value = "" then .error ("[!] Missing required input: " ++ key) else .ok value

/-- The checkout-parameter cascade from `main` (step.go lines 285 to 298):
first-non-empty wins among pull-request id (mapped to `pull/<id>`),
commit, tag, branch; with all four empty the parameter stays `""` and the
warning line is printed. -/
def resolveCheckoutParam (pullRequestID commit tag branch : String) :
    String × List Event :=
  if 0 < pullRequestID.length then ("pull/" ++ pullRequestID, [])
  else if 0 < commit.length then (commit, [])
  else if 0 < tag.length then (tag, [])
  else if 0 < branch.length then (branch, [])
  else ("", [Event.printLine " [!] No checkout parameter found"])

/-- A parsed URI: scheme, host and path components over character lists. -/
structure URI where
  scheme : List Char
  host : List Char
  path : List Char
deriving DecidableEq

/-- Modelled from the spec: `main` parses the repository URL "as a URI"
and re-serializes it; the parser itself (net/url) is not part of this
repository, so the `scheme://host/path` shape the spec describes is
modelled here.  `splitScheme` cuts the input at the first occurrence of
`://` into the scheme and the remainder; an input with no `://` is
malformed. -/
def splitScheme : List Char → Option (List Char × List Char)
  | [] => none
  | c :: rest =>
      if c = ':' ∧ rest.take 2 = ['/', '/'] then some ([], rest.drop 2)
      else
        match splitScheme rest with
        | some ab => some (c :: ab.1, ab.2)
        | none => none

/-- Modelled from the spec: parse a repository URL into scheme, host and
path; the host is the remainder up to the first slash, the path is the
rest. -/
def parseURI (s : List Char) : Option URI :=
  match splitScheme s with
  | none => none
  | some sr =>
      some ⟨sr.1, sr.2.takeWhile (fun c => c ≠ '/'), sr.2.dropWhile (fun c => c ≠ '/')⟩

/-- Modelled from the spec: re-serialize a parsed URI, the `URL.String`
counterpart of `parseURI`. -/
def serializeURI (u : URI) : List Char :=
  u.scheme ++ ':' :: '/' :: '/' :: (u.host ++ u.path)

/-- The step inputs read from the environment by `main`, in the source
order of the `validateRequiredInput` calls. -/
structure Inputs where
  repositoryUrl : String
  cloneIntoDir : String
  commit : String
  tag : String
  branch : String
  pullRequestID : String
  authSSHPrivateKey : String

/-- Outcome of one whole run of `main`: `log.Fatalf` with a message, or a
normal exit. -/
inductive MainResult where
  | fatal (msg : String)
  | done
deriving DecidableEq

/-- External collaborators of `main` outside `doGitClone`: the `HOME`
environment variable, the outcome of writing the private-key file, and
`filepath.Abs`. -/
structure MainEnv where
  gitEnv : GitEnv
  home : String
  keyWriteRes : Except String Unit
  absResolve : String → Except String String

/-- `writePrivateKeyToFile` from step.go: fails when `HOME` is empty,
otherwise writes the key to `HOME/.ssh/bitrise`. -/
def writePrivateKeyToFile (menv : MainEnv) (authSSHPrivateKey : String) :
    Except String String × List Event :=
  if menv.home = "" then (.error "Faild to get HOME", [])
  else
    let pth := joinPath (joinPath menv.home ".ssh") "bitrise"
    match menv.keyWriteRes with
    | .ok _ => (.ok pth, [Event.fileWrite pth authSSHPrivateKey])
    | .error e => (.error e, [Event.fileWrite pth authSSHPrivateKey])

/-- `main` from step.go: the seven `validateRequiredInput` calls in source
order (each failure is `log.Fatalf`), path normalization, private-key
write, URL parse, checkout-parameter resolution, then `doGitClone` on the
re-serialized URL. -/
def mainModel (i : Inputs) (menv : MainEnv) (procCwd : String) :
    MainResult × List Event :=
  match validateRequiredInput "repository_url" i.repositoryUrl with
  | .error e => (.fatal ("Input validation failed, err: " ++ e), [])
  | .ok repoURL =>
  match validateRequiredInput "clone_into_dir" i.cloneIntoDir with
  | .error e => (.fatal ("Input validation failed, err: " ++ e), [])
  | .ok cloneIntoDir =>
  match validateRequiredInput "commit" i.commit with
  | .error e => (.fatal ("Input validation failed, err: " ++ e), [])
  | .ok commit =>
  match validateRequiredInput "tag" i.tag with
  | .error e => (.fatal ("Input validation failed, err: " ++ e), [])
  | .ok tag =>
  match validateRequiredInput "branch" i.branch with
  | .error e => (.fatal ("Input validation failed, err: " ++ e), [])
  | .ok branch =>
  match validateRequiredInput "pull_request_id" i.pullRequestID with
  | .error e => (.fatal ("Input validation failed, err: " ++ e), [])
  | .ok pullRequestID =>
  match validateRequiredInput "auth_ssh_private_key" i.authSSHPrivateKey with
  | .error e => (.fatal ("Input validation failed, err: " ++ e), [])
  | .ok authSSHPrivateKey =>
  match menv.absResolve cloneIntoDir with
  | .error e => (.fatal ("Failed to expand path (" ++ cloneIntoDir ++ "), err: " ++ e), [])
  | .ok absCloneIntoDir =>
  match writePrivateKeyToFile menv authSSHPrivateKey with
  | (.error e, tr) => (.fatal ("Failed to write private key to file, err: " ++ e), tr)
  | (.ok privateKeyFilePth, tr) =>
  match parseURI repoURL.toList with
  | none => (.fatal ("Failed to parse repo url (" ++ repoURL ++ ")"), tr)
  | some preparedRepoURL =>
    let resStep := resolveCheckoutParam pullRequestID commit tag branch
    match doGitClone menv.gitEnv procCwd absCloneIntoDir privateKeyFilePth
        (String.mk (serializeURI preparedRepoURL)) pullRequestID resStep.1 with
    | (.error e, cloneTr) =>
        (.fatal ("git clone failed, err: " ++ e), tr ++ resStep.2 ++ cloneTr)
    | (.ok _, cloneTr) => (.done, tr ++ resStep.2 ++ cloneTr)

/-- Observer: the pairs published through envman in a trace. -/
def publishedPairs (tr : List Event) : List (String × String) :=
  tr.filterMap (fun e =>
    match e with
    | .envmanRun k v => some (k, v)
    | _ => none)

/-- Observer: the argument vectors of the captured-output git invocations
(the `git log` metadata queries) in a trace. -/
def gitLogQueries (tr : List Event) : List (List String) :=
  tr.filterMap (fun e =>
    match e with
    | .runGitCaptured _ args => some args
    | _ => none)

/-- Observer: the working directories of all git invocations in a trace. -/
def gitRunDirs (tr : List Event) : List String :=
  tr.filterMap (fun e =>
    match e with
    | .runGit d _ => some d
    | .runGitCaptured d _ => some d
    | _ => none)

/-- Observer: whether an event writes to the filesystem, the process
environment or an external process (a stat probe and a printed line are
the only reads). -/
def isWriteEffect : Event → Bool
  | .statCheck _ => false
  | .printLine _ => false
  | _ => true

/-- Observer: whether an event belongs to the checkout phase or later —
a `git checkout` or `git submodule` invocation, a metadata query, or an
envman publish. -/
def isCheckoutPhase : Event → Bool
  | .runGit _ args => args.head? = some "checkout" || args.head? = some "submodule"
  | .runGitCaptured _ _ => true
  | .envmanRun _ _ => true
  | _ => false

/-- Spec-side reading of first-non-empty-wins: an optional hint is absent
when it is the empty string. -/
def optHint (s : String) : Option String := if s = "" then none else some s

/-- Spec-side reading of a priority cascade: the first present entry. -/
def firstHit : List (Option String) → Option String
  | [] => none
  | some v :: _ => some v
  | none :: rest => firstHit rest

/-- Spec-side checkout target: the highest-priority non-empty hint in the
order pull-request id (as its merge-ref parameter), commit, tag, branch. -/
def specCheckoutTarget (pullRequestID commit tag branch : String) : Option String :=
  firstHit [(optHint pullRequestID).map (fun p => "pull/" ++ p),
            optHint commit, optHint tag, optHint branch]

/-- The value `doGitClone` stores for a metadata key: the captured
standard output when the query succeeds, the empty string when it fails. -/
def statValue (env : GitEnv) (formatParam : String) : String :=
  match env.logExec formatParam with
  | .ok v => v
  | .error _ => ""

/-- A run environment in which every external collaborator succeeds. -/
def envAllOk : GitEnv :=
  { gitCheckExists := .ok false
    mkdirOk := true
    initRes := .ok ()
    addRemoteRes := .ok ()
    fetchRes := .ok ()
    checkoutRes := .ok ()
    submoduleRes := .ok ()
    logExec := fun _ => .ok "deadbeef"
    envmanRes := fun _ => .ok () }

/-- A run environment in which `destinationDir/.git` already exists. -/
def envGitExists : GitEnv := { envAllOk with gitCheckExists := .ok true }

/-- A run environment in which `git init` fails with a concrete exit
error. -/
def envInitFails : GitEnv := { envAllOk with initRes := .error "exit status 1" }

/-- A run environment in which the subject-line metadata query fails and
the hash query succeeds with output ending in a newline, and publishing
the hash key fails. -/
def envLogMixed : GitEnv :=
  { envAllOk with
    logExec := fun f =>
      if f = "%s" then .error ("exit status 128", "fatal: bad revision")
      else .ok "abc123\n"
    envmanRes := fun k =>
      if k = "GIT_CLONE_COMMIT_HASH" then .error "exit status 1" else .ok () }

/-- A main environment in which `HOME` is set and every collaborator of
`main` outside `doGitClone` succeeds. -/
def menvStd : MainEnv :=
  { gitEnv := envAllOk
    home := "/home/user"
    keyWriteRes := .ok ()
    absResolve := fun p => .ok p }

/-- Inputs with both required values present and every optional value
left empty. -/
def inputsOptionalEmpty : Inputs :=
  { repositoryUrl := "https://example.com/r.git"
    cloneIntoDir := "/tmp/out"
    commit := ""
    tag := ""
    branch := ""
    pullRequestID := ""
    authSSHPrivateKey := "" }

/-- Inputs that are all non-empty but whose repository URL has no
`://`, hence is malformed for the modelled parser. -/
def inputsBadURL : Inputs :=
  { repositoryUrl := "git@github.com:x.git"
    cloneIntoDir := "/tmp/out"
    commit := "c0ffee"
    tag := "v1"
    branch := "main"
    pullRequestID := "7"
    authSSHPrivateKey := "KEY" }

/-- Decidable prefix test on character lists. -/
def startsWithChars : List Char → List Char → Bool
  | [], _ => true
  | _ :: _, [] => false
  | a :: as, b :: bs => (a = b) && startsWithChars as bs

/-- Decidable substring test on character lists. -/
def containsChars (needle : List Char) : List Char → Bool
  | [] => startsWithChars needle []
  | c :: t => startsWithChars needle (c :: t) || containsChars needle t

theorem strLength_pos_iff (s : String) : 0 < s.length ↔ s ≠ "" := by
  constructor
  · intro h heq
    subst heq
    exact (by decide : ¬ 0 < String.length "") h
  · intro h
    rcases s with ⟨data⟩
    cases data with
    | nil => exact absurd rfl h
    | cons c cs => simp [String.length]

/-- C1: the spec reads the pull-request id, commit, tag, branch and
private-key inputs as optional, with the empty string meaning not
provided; `main`, however, passes every one of them through
`validateRequiredInput` under the `Optional parameters` comment, so a run
with both required inputs present and the optional ones empty terminates
in input validation instead of proceeding: with all five optional inputs
empty, the run dies on the first of them (`commit`) before any side
effect. -/
theorem c1_empty_optional_input_is_fatal :
    mainModel inputsOptionalEmpty menvStd "/wd"
      = (.fatal "Input validation failed, err: [!] Missing required input: commit", []) := by
  rfl

/-- C2: `doGitInit` runs `git init` with no directory argument and with
the child working directory left as the step process working directory;
nothing in the program changes directory to the destination.  In a run
whose process working directory is `/wd` and whose destination is
`/wd/dest`, every git invocation (the init included) runs in `/wd`, a
directory different from the destination, so the repository metadata is
not created under the destination directory. -/
theorem c2_git_init_runs_in_process_cwd_not_destination :
    Event.runGit "/wd" gitInitArgs
        ∈ (doGitClone envAllOk "/wd" "/wd/dest" "" "https://example.com/r.git" "" "main").2 ∧
    (gitRunDirs (doGitClone envAllOk "/wd" "/wd/dest" "" "https://example.com/r.git" "" "main").2).all
        (fun d => d = "/wd") = true ∧
    ("/wd" : String) ≠ "/wd/dest" := by
  refine ⟨by decide, by decide, by decide⟩

/-- C5: a failing step does abort the sequence (after a failed init the
trace stops at the init invocation), but the init failure is wrapped as
`Could not init git repository, err: <cloneIntoDir>`: the source formats
the destination directory into the `err:` slot instead of the underlying
error it just received, so the underlying tool error (`exit status 1`
here) does not appear in the returned message. -/
theorem c5_init_failure_wraps_directory_not_underlying_error :
    doGitClone envInitFails "/wd" "/tmp/out" "" "https://example.com/r.git" "" "main"
      = (.error "Could not init git repository, err: /tmp/out",
         [Event.statCheck "/tmp/out/.git", Event.mkdirCall "/tmp/out",
          Event.runGit "/wd" gitInitArgs]) ∧
    containsChars "exit status 1".toList
        "Could not init git repository, err: /tmp/out".toList = false := by
  refine ⟨by rfl, by decide⟩

/-- C4: when `destinationDir/.git` already exists, `doGitClone` returns
the guard failure at once; its whole trace is the single existence probe,
so the destination directory is not created, no git process is started,
and no write effect of any kind happens. -/
theorem c4_existing_git_dir_fails_without_side_effects (env : GitEnv)
    (procCwd cloneIntoDir privateKeyFilePth repositoryURL pullRequestID gitCheckoutParam : String)
    (h : env.gitCheckExists = .ok true) :
    doGitClone env procCwd cloneIntoDir privateKeyFilePth repositoryURL pullRequestID gitCheckoutParam
      = (.error (".git folder already exists in the destination dir at: "
            ++ joinPath cloneIntoDir ".git"),
         [Event.statCheck (joinPath cloneIntoDir ".git")]) ∧
    ∀ e ∈ (doGitClone env procCwd cloneIntoDir privateKeyFilePth repositoryURL
        pullRequestID gitCheckoutParam).2, isWriteEffect e = false := by
  have hmain : doGitClone env procCwd cloneIntoDir privateKeyFilePth repositoryURL
      pullRequestID gitCheckoutParam
      = (.error (".git folder already exists in the destination dir at: "
            ++ joinPath cloneIntoDir ".git"),
         [Event.statCheck (joinPath cloneIntoDir ".git")]) := by
    simp [doGitClone, h]
  refine ⟨hmain, ?_⟩
  rw [hmain]
  intro e he
  simp only [List.mem_singleton] at he
  subst he
  rfl

theorem c4_guard_witness :
    doGitClone envGitExists "/wd" "/tmp/out" "" "https://example.com/r.git" "" "main"
      = (.error ".git folder already exists in the destination dir at: /tmp/out/.git",
         [Event.statCheck "/tmp/out/.git"]) := by
  have h := c4_existing_git_dir_fails_without_side_effects envGitExists "/wd" "/tmp/out" ""
    "https://example.com/r.git" "" "main" rfl
  exact h.1.trans (by rfl)

/-- C8: the fetch step of `doGitFetch` uses the two extra arguments
`origin` and `pull/<id>/merge:<checkout target>` exactly when a
pull-request id is supplied, and a plain `git fetch` with no extra
arguments otherwise. -/
theorem c8_fetch_parameterization (env : GitEnv)
    (procCwd sshNoPromtFilePth pullRequestID gitCheckoutParam : String) :
    (pullRequestID ≠ "" →
      (doGitFetch env procCwd sshNoPromtFilePth pullRequestID gitCheckoutParam).2
        = [Event.setenvCall "GIT_ASKPASS" "echo",
           Event.setenvCall "GIT_SSH" sshNoPromtFilePth,
           Event.runGit procCwd
             ["fetch", "origin", "pull/" ++ pullRequestID ++ "/merge:" ++ gitCheckoutParam]]) ∧
    (pullRequestID = "" →
      (doGitFetch env procCwd sshNoPromtFilePth pullRequestID gitCheckoutParam).2
        = [Event.setenvCall "GIT_ASKPASS" "echo",
           Event.setenvCall "GIT_SSH" sshNoPromtFilePth,
           Event.runGit procCwd ["fetch"]]) := by
  constructor <;> intro h <;> simp [doGitFetch, gitFetchArgs, h]

theorem c8_fetch_witness :
    (doGitFetch envAllOk "/wd" "ssh_no_prompt.sh" "7" "pull/7").2
      = [Event.setenvCall "GIT_ASKPASS" "echo",
         Event.setenvCall "GIT_SSH" "ssh_no_prompt.sh",
         Event.runGit "/wd" ["fetch", "origin", "pull/7/merge:pull/7"]] := by
  have h := (c8_fetch_parameterization envAllOk "/wd" "ssh_no_prompt.sh" "7" "pull/7").1
    (by decide)
  exact h.trans (by rfl)

/-- C3: the checkout-parameter cascade of `main` computes exactly the
spec-side first-non-empty-wins priority pull-request id > commit > tag >
branch, where a pull-request id yields the merge-ref parameter
`pull/<id>`; with all four hints empty the effective target is the empty
string and the only surfaced output is the printed warning line — the
cascade has no failure outcome at all. -/
theorem c3_checkout_target_priority_first_non_empty_wins
    (pullRequestID commit tag branch : String) :
    resolveCheckoutParam pullRequestID commit tag branch
      = (match specCheckoutTarget pullRequestID commit tag branch with
         | some v => (v, [])
         | none => ("", [Event.printLine " [!] No checkout parameter found"])) := by
  by_cases hp : pullRequestID = "" <;> by_cases hc : commit = "" <;>
    by_cases ht : tag = "" <;> by_cases hb : branch = "" <;>
    simp [resolveCheckoutParam, specCheckoutTarget, firstHit, optHint,
      strLength_pos_iff, hp, hc, ht, hb]

/-- C6: with the guard passing, directory creation succeeding and the
init, add-remote and fetch steps succeeding, a run whose effective
checkout target is empty (hence with no pull-request id either) returns
success right after fetch: the notice line is printed, and the trace
contains no checkout or submodule invocation, no metadata query and no
publish. -/
theorem c6_empty_target_succeeds_after_fetch_alone (env : GitEnv)
    (procCwd cloneIntoDir privateKeyFilePth repositoryURL : String)
    (h1 : env.gitCheckExists = .ok false) (h2 : env.mkdirOk = true)
    (h3 : env.initRes = .ok ()) (h4 : env.addRemoteRes = .ok ())
    (h5 : env.fetchRes = .ok ()) :
    (doGitClone env procCwd cloneIntoDir privateKeyFilePth repositoryURL "" "").1 = .ok () ∧
    Event.printLine " [!] No checkout parameter (branch, tag, commit hash or pull-request ID) provided!"
      ∈ (doGitClone env procCwd cloneIntoDir privateKeyFilePth repositoryURL "" "").2 ∧
    ∀ e ∈ (doGitClone env procCwd cloneIntoDir privateKeyFilePth repositoryURL "" "").2,
      isCheckoutPhase e = false := by
  refine ⟨?_, ?_, ?_⟩
  · simp [doGitClone, h1, h2, h3, h4, h5, doGitInit, doGitAddRemote, doGitFetch]
  · simp [doGitClone, h1, h2, h3, h4, h5, doGitInit, doGitAddRemote, doGitFetch]
  · intro e he
    simp [doGitClone, h1, h2, h3, h4, h5, doGitInit, doGitAddRemote, doGitFetch] at he
    rcases he with h | h | h | h | h | h | h | h | h | h <;> subst h <;>
      simp [isCheckoutPhase, gitInitArgs, gitAddRemoteArgs, gitFetchArgs]

theorem c6_empty_target_witness :
    (doGitClone envAllOk "/wd" "/tmp/out" "" "https://example.com/r.git" "" "").1 = .ok () ∧
    Event.printLine " [!] No checkout parameter (branch, tag, commit hash or pull-request ID) provided!"
      ∈ (doGitClone envAllOk "/wd" "/tmp/out" "" "https://example.com/r.git" "" "").2 ∧
    ∀ e ∈ (doGitClone envAllOk "/wd" "/tmp/out" "" "https://example.com/r.git" "" "").2,
      isCheckoutPhase e = false :=
  c6_empty_target_succeeds_after_fetch_alone envAllOk "/wd" "/tmp/out" ""
    "https://example.com/r.git" rfl rfl rfl rfl rfl

theorem collectOneStat_fst (env : GitEnv) (procCwd : String) (kf : String × String) :
    (collectOneStat env procCwd kf).1 = (kf.1, statValue env kf.2) := by
  cases h : env.logExec kf.2 <;> simp [collectOneStat, getGitLog, statValue, h]

theorem publishedPairs_append (a b : List Event) :
    publishedPairs (a ++ b) = publishedPairs a ++ publishedPairs b := by
  simp [publishedPairs]

theorem publishedPairs_publishOneStat (env : GitEnv) (kv : String × String) :
    publishedPairs (publishOneStat env kv) = [kv] := by
  cases h : env.envmanRes kv.1 <;> simp [publishOneStat, publishedPairs, h]

theorem publishedPairs_publishCommitStats (env : GitEnv) (stats : List (String × String)) :
    publishedPairs (publishCommitStats env stats) = stats := by
  induction stats with
  | nil => rfl
  | cons kv rest ih =>
      simp [publishCommitStats, publishedPairs_append, publishedPairs_publishOneStat] at ih ⊢
      exact ih

theorem publishedPairs_collectOneStat (env : GitEnv) (procCwd : String) (kf : String × String) :
    publishedPairs (collectOneStat env procCwd kf).2 = [] := by
  cases h : env.logExec kf.2 <;> simp [collectOneStat, getGitLog, publishedPairs, h]

theorem publishedPairs_collectTrace (env : GitEnv) (procCwd : String)
    (l : List (String × String)) :
    publishedPairs ((l.map (fun kf => (collectOneStat env procCwd kf).2)).flatten) = [] := by
  induction l with
  | nil => rfl
  | cons kf rest ih =>
      simp [publishedPairs_append, publishedPairs_collectOneStat, ih]

theorem publishedPairs_nil : publishedPairs [] = [] := rfl

theorem publishedPairs_cons_statCheck (p : String) (tr : List Event) :
    publishedPairs (Event.statCheck p :: tr) = publishedPairs tr := rfl

theorem publishedPairs_cons_mkdir (d : String) (tr : List Event) :
    publishedPairs (Event.mkdirCall d :: tr) = publishedPairs tr := rfl

theorem publishedPairs_cons_setenv (k v : String) (tr : List Event) :
    publishedPairs (Event.setenvCall k v :: tr) = publishedPairs tr := rfl

theorem publishedPairs_cons_runGit (d : String) (args : List String) (tr : List Event) :
    publishedPairs (Event.runGit d args :: tr) = publishedPairs tr := rfl

theorem publishedPairs_cons_runGitCaptured (d : String) (args : List String) (tr : List Event) :
    publishedPairs (Event.runGitCaptured d args :: tr) = publishedPairs tr := rfl

theorem publishedPairs_cons_printLine (s : String) (tr : List Event) :
    publishedPairs (Event.printLine s :: tr) = publishedPairs tr := rfl

theorem publishedPairs_cons_envman (k v : String) (tr : List Event) :
    publishedPairs (Event.envmanRun k v :: tr) = (k, v) :: publishedPairs tr := rfl

theorem gitLogQueries_nil : gitLogQueries [] = [] := rfl

theorem gitLogQueries_cons_statCheck (p : String) (tr : List Event) :
    gitLogQueries (Event.statCheck p :: tr) = gitLogQueries tr := rfl

theorem gitLogQueries_cons_mkdir (d : String) (tr : List Event) :
    gitLogQueries (Event.mkdirCall d :: tr) = gitLogQueries tr := rfl

theorem gitLogQueries_cons_setenv (k v : String) (tr : List Event) :
    gitLogQueries (Event.setenvCall k v :: tr) = gitLogQueries tr := rfl

theorem gitLogQueries_cons_runGit (d : String) (args : List String) (tr : List Event) :
    gitLogQueries (Event.runGit d args :: tr) = gitLogQueries tr := rfl

theorem gitLogQueries_cons_runGitCaptured (d : String) (args : List String) (tr : List Event) :
    gitLogQueries (Event.runGitCaptured d args :: tr) = args :: gitLogQueries tr := rfl

theorem gitLogQueries_cons_printLine (s : String) (tr : List Event) :
    gitLogQueries (Event.printLine s :: tr) = gitLogQueries tr := rfl

theorem gitLogQueries_cons_envman (k v : String) (tr : List Event) :
    gitLogQueries (Event.envmanRun k v :: tr) = gitLogQueries tr := rfl

theorem gitLogQueries_append (a b : List Event) :
    gitLogQueries (a ++ b) = gitLogQueries a ++ gitLogQueries b := by
  simp [gitLogQueries]

theorem gitLogQueries_publishOneStat (env : GitEnv) (kv : String × String) :
    gitLogQueries (publishOneStat env kv) = [] := by
  cases h : env.envmanRes kv.1 <;> simp [publishOneStat, gitLogQueries, h]

theorem gitLogQueries_publishCommitStats (env : GitEnv) (stats : List (String × String)) :
    gitLogQueries (publishCommitStats env stats) = [] := by
  induction stats with
  | nil => rfl
  | cons kv rest ih =>
      simp [publishCommitStats, gitLogQueries_append, gitLogQueries_publishOneStat] at ih ⊢
      exact ih

theorem gitLogQueries_collectOneStat (env : GitEnv) (procCwd : String) (kf : String × String) :
    gitLogQueries (collectOneStat env procCwd kf).2 = [gitLogArgs kf.2] := by
  cases h : env.logExec kf.2 <;> simp [collectOneStat, getGitLog, gitLogQueries, h]

theorem gitLogQueries_collectTrace (env : GitEnv) (procCwd : String)
    (l : List (String × String)) :
    gitLogQueries ((l.map (fun kf => (collectOneStat env procCwd kf).2)).flatten)
      = l.map (fun kf => gitLogArgs kf.2) := by
  induction l with
  | nil => rfl
  | cons kf rest ih =>
      simp [gitLogQueries_append, gitLogQueries_collectOneStat, ih]

/-- C7: with the orchestration steps through submodule update succeeding
and a non-empty checkout target, `doGitClone` returns success whatever the
outcomes of the metadata queries and publishes are; its trace carries all
seven `git log -1 --format` queries, and the published pairs are exactly
the seven keys, each with its captured output, the empty string standing
in for a failed query — never an omitted key. -/
theorem c7_metadata_attempts_all_seven_keys (env : GitEnv)
    (procCwd cloneIntoDir privateKeyFilePth repositoryURL pullRequestID gitCheckoutParam : String)
    (h1 : env.gitCheckExists = .ok false) (h2 : env.mkdirOk = true)
    (h3 : env.initRes = .ok ()) (h4 : env.addRemoteRes = .ok ())
    (h5 : env.fetchRes = .ok ()) (h6 : env.checkoutRes = .ok ())
    (h7 : env.submoduleRes = .ok ()) (ht : gitCheckoutParam ≠ "") :
    (doGitClone env procCwd cloneIntoDir privateKeyFilePth repositoryURL
        pullRequestID gitCheckoutParam).1 = .ok () ∧
    gitLogQueries (doGitClone env procCwd cloneIntoDir privateKeyFilePth repositoryURL
        pullRequestID gitCheckoutParam).2 = commitStatsSpecs.map (fun kf => gitLogArgs kf.2) ∧
    publishedPairs (doGitClone env procCwd cloneIntoDir privateKeyFilePth repositoryURL
        pullRequestID gitCheckoutParam).2
      = commitStatsSpecs.map (fun kf => (kf.1, statValue env kf.2)) := by
  refine ⟨?_, ?_, ?_⟩
  · simp [doGitClone, h1, h2, h3, h4, h5, h6, h7, ht,
      doGitInit, doGitAddRemote, doGitFetch, doGitCheckout, doGitSubmodelueUpdate]
  · simp [doGitClone, h1, h2, h3, h4, h5, h6, h7, ht,
      doGitInit, doGitAddRemote, doGitFetch, doGitCheckout, doGitSubmodelueUpdate,
      collectCommitStats, gitLogQueries_append, gitLogQueries_publishCommitStats,
      gitLogQueries_collectTrace, gitLogQueries_nil, gitLogQueries_cons_statCheck,
      gitLogQueries_cons_mkdir, gitLogQueries_cons_setenv, gitLogQueries_cons_runGit,
      gitLogQueries_cons_printLine]
  · simp [doGitClone, h1, h2, h3, h4, h5, h6, h7, ht,
      doGitInit, doGitAddRemote, doGitFetch, doGitCheckout, doGitSubmodelueUpdate,
      collectCommitStats, publishedPairs_append, publishedPairs_publishCommitStats,
      publishedPairs_collectTrace, publishedPairs_nil, publishedPairs_cons_statCheck,
      publishedPairs_cons_mkdir, publishedPairs_cons_setenv, publishedPairs_cons_runGit,
      publishedPairs_cons_printLine, collectOneStat_fst]

theorem c7_metadata_witness :
    (doGitClone envLogMixed "/wd" "/tmp/out" "" "https://example.com/r.git" "" "main").1
        = .ok () ∧
    gitLogQueries (doGitClone envLogMixed "/wd" "/tmp/out" "" "https://example.com/r.git"
        "" "main").2 = commitStatsSpecs.map (fun kf => gitLogArgs kf.2) ∧
    publishedPairs (doGitClone envLogMixed "/wd" "/tmp/out" "" "https://example.com/r.git"
        "" "main").2 = commitStatsSpecs.map (fun kf => (kf.1, statValue envLogMixed kf.2)) :=
  c7_metadata_attempts_all_seven_keys envLogMixed "/wd" "/tmp/out" ""
    "https://example.com/r.git" "" "main" rfl rfl rfl rfl rfl rfl rfl (by decide)

/-- C10: the value stored for a metadata key is the captured standard
output of the `git log` query exactly as captured — no trimming or
normalization, trailing newlines and multi-line bodies included — and a
failed query stores exactly the empty string; the publishing loop then
publishes exactly the stored pairs. -/
theorem c10_published_values_are_verbatim (env : GitEnv) (procCwd : String) :
    (∀ (kf : String × String) (out : String), env.logExec kf.2 = .ok out →
        (collectOneStat env procCwd kf).1 = (kf.1, out)) ∧
    (∀ (kf : String × String) (ed : String × String), env.logExec kf.2 = .error ed →
        (collectOneStat env procCwd kf).1 = (kf.1, "")) ∧
    (∀ stats : List (String × String),
        publishedPairs (publishCommitStats env stats) = stats) := by
  refine ⟨?_, ?_, ?_⟩
  · intro kf out h
    simp [collectOneStat_fst, statValue, h]
  · intro kf ed h
    simp [collectOneStat_fst, statValue, h]
  · intro stats
    exact publishedPairs_publishCommitStats env stats

theorem c10_verbatim_witness :
    (collectOneStat envLogMixed "/wd" ("GIT_CLONE_COMMIT_HASH", "%H")).1
        = ("GIT_CLONE_COMMIT_HASH", "abc123\n") ∧
    (collectOneStat envLogMixed "/wd" ("GIT_CLONE_COMMIT_MESSAGE_SUBJECT", "%s")).1
        = ("GIT_CLONE_COMMIT_MESSAGE_SUBJECT", "") :=
  ⟨(c10_published_values_are_verbatim envLogMixed "/wd").1
      ("GIT_CLONE_COMMIT_HASH", "%H") "abc123\n" rfl,
   (c10_published_values_are_verbatim envLogMixed "/wd").2.1
      ("GIT_CLONE_COMMIT_MESSAGE_SUBJECT", "%s") ("exit status 128", "fatal: bad revision")
      rfl⟩

theorem splitScheme_sound (s : List Char) :
    ∀ a b : List Char, splitScheme s = some (a, b) → s = a ++ ':' :: '/' :: '/' :: b := by
  induction s with
  | nil => intro a b h; simp [splitScheme] at h
  | cons c rest ih =>
      intro a b h
      rw [splitScheme] at h
      by_cases hc : c = ':' ∧ rest.take 2 = ['/', '/']
      · rw [if_pos hc] at h
        injection h with h
        obtain ⟨ha, hb⟩ := Prod.mk.injEq .. ▸ h
        rcases hc with ⟨hc1, hc2⟩
        subst hc1
        subst ha
        subst hb
        have hrest := List.take_append_drop 2 rest
        rw [hc2] at hrest
        simpa using hrest.symm ▸ rfl
      · rw [if_neg hc] at h
        cases hsp : splitScheme rest with
        | none => rw [hsp] at h; simp at h
        | some ab =>
            rw [hsp] at h
            injection h with h
            obtain ⟨ha, hb⟩ := Prod.mk.injEq .. ▸ h
            subst ha
            subst hb
            have := ih ab.1 ab.2 (by rw [hsp])
            simp [this]

theorem parseURI_roundtrip (s : List Char) (u : URI) (h : parseURI s = some u) :
    serializeURI u = s ∧ parseURI (serializeURI u) = some u := by
  unfold parseURI at h
  cases hsp : splitScheme s with
  | none => rw [hsp] at h; cases h
  | some sr =>
      rw [hsp] at h
      injection h with h
      have hs := splitScheme_sound s sr.1 sr.2 hsp
      have hser : serializeURI u = s := by
        rw [← h]
        simp [serializeURI, hs]
      refine ⟨hser, ?_⟩
      rw [hser]
      unfold parseURI
      rw [hsp]
      exact congrArg some h

/-- C9: `main` parses the repository URL and hands the re-serialized form
to the clone; for the modelled `scheme://host/path` parser the round trip
is stable — re-serializing a parse result gives back the very input, so
parsing it again yields the same scheme, host and path — and a malformed
URL (no `://`) makes the run fatal after the private-key write, before
any clone side effect: the trace of the failing run holds no directory
creation and no git invocation. -/
theorem c9_url_roundtrip_and_malformed_is_fatal :
    (∀ (s : List Char) (u : URI), parseURI s = some u →
        serializeURI u = s ∧ parseURI (serializeURI u) = some u) ∧
    mainModel inputsBadURL menvStd "/wd"
      = (.fatal "Failed to parse repo url (git@github.com:x.git)",
         [Event.fileWrite "/home/user/.ssh/bitrise" "KEY"]) ∧
    gitRunDirs (mainModel inputsBadURL menvStd "/wd").2 = [] :=
  ⟨fun s u h => parseURI_roundtrip s u h, by rfl, by rfl⟩

theorem c9_roundtrip_witness :
    serializeURI ⟨"https".toList, "example.com".toList, "/r.git".toList⟩
        = "https://example.com/r.git".toList ∧
    parseURI "https://example.com/r.git".toList
        = some ⟨"https".toList, "example.com".toList, "/r.git".toList⟩ := by
  have h := c9_url_roundtrip_and_malformed_is_fatal.1 "https://example.com/r.git".toList
    ⟨"https".toList, "example.com".toList, "/r.git".toList⟩ (by decide)
  exact ⟨h.1, by decide⟩

end GitCloneStep
